import Mathlib

/-
Verification of the mcp_gcal server core (src/src/mcp_gcal/server.py).

The Python module is embedded shallowly: every oracle the code consults
(environment variables, the token file, the OAuth refresh and interactive
flows, the Google Calendar client, the registry HTTP endpoint, zoneinfo
offsets) is a field of an explicit environment record, and every function
additionally returns the list of side effects or upstream calls it issued,
so that claims about "no network access" and "which file is written" are
statements about those traces.
-/

namespace McpGcal

/-- Minimal JSON value universe for the payloads the upstream calendar
APIs return and the tools forward verbatim. -/
inductive JsonVal where
  | obj : List (String × JsonVal) → JsonVal
  | arr : List JsonVal → JsonVal
  | str : String → JsonVal
  | num : Int → JsonVal
  | boolean : Bool → JsonVal
  | null : JsonVal

/-- A single quote character, used to render Python f-string quoting. -/
def sq : String := String.mk [Char.ofNat 39]

/-- Model of google.oauth2.credentials.Credentials as the server uses it:
the `valid` and `expired` flags, the refresh token (None or a string), and
the serialized form `to_json()` writes. -/
structure Creds where
  valid : Bool
  expired : Bool
  refresh_token : Option String
  to_json : String
deriving DecidableEq

/-- Python truthiness of `creds.refresh_token`: None and the empty string
are falsy. -/
def truthyRefreshToken (c : Creds) : Bool :=
  match c.refresh_token with
  | none => false
  | some s => !(s == "")

/-- Side effects of `get_gcal_credentials`, in program order.
`interactiveFlow` covers reading the client-secret descriptor and running
the local-server consent flow (`InstalledAppFlow.from_client_secrets_file`
followed by `run_local_server`). -/
inductive CredEffect where
  | fileRead : String → CredEffect
  | refreshCall : CredEffect
  | interactiveFlow : CredEffect
  | fileWrite : String → String → CredEffect
deriving DecidableEq

/-- Environment of `get_gcal_credentials`: the two environment variables,
the parsed content of the token file when it exists at the configured
token path, and the outcomes of the refresh exchange and of the
interactive flow (an `Except.error` models a raised exception). -/
structure CredEnv where
  gcal_token_path : Option String
  gcal_credentials_path : Option String
  token_file : Option Creds
  refreshResult : Creds → Except String Creds
  flowResult : Except String Creds

/-- Message of the KeyError the source re-raises for a missing
environment variable: the f-string renders the original KeyError as the
quoted key ("enviroment" is the typo of the source). -/
def keyErrMsg (k : String) : String :=
  "Can" ++ sq ++ "t find enviroment variable " ++ sq ++ k ++ sq

/-- OAuth scopes requested by the source (SCOPES). -/
def SCOPES : List String := ["https://www.googleapis.com/auth/calendar.readonly"]

/-- Final step of `get_gcal_credentials`: `open("token.json", "w")` and
`token.write(creds.to_json())` — the write path is the literal relative
name "token.json" in the source, not the configured token path. -/
def saveAndReturn (c : Creds) (tr : List CredEffect) :
    Except String Creds × List CredEffect :=
  (Except.ok c, tr ++ [CredEffect.fileWrite "token.json" c.to_json])

/-- The `else` branch of the source: mint fresh credentials with the
interactive flow, then save. A flow failure is a raised exception. -/
def runInteractiveFlow (env : CredEnv) (tr : List CredEffect) :
    Except String Creds × List CredEffect :=
  match env.flowResult with
  | Except.ok c => saveAndReturn c (tr ++ [CredEffect.interactiveFlow])
  | Except.error e => (Except.error e, tr ++ [CredEffect.interactiveFlow])

/-- Embedding of `get_gcal_credentials` (server.py lines 23-66). Returns
the result (credentials, or the text of the raised exception) paired with
the trace of side effects performed. -/
def get_gcal_credentials (env : CredEnv) : Except String Creds × List CredEffect :=
  match env.gcal_token_path with
  | none => (Except.error (keyErrMsg "GCAL_TOKEN_PATH"), [])
  | some tokenPath =>
    match env.gcal_credentials_path with
    | none => (Except.error (keyErrMsg "GCAL_CREDENTIALS_PATH"), [])
    | some _ =>
      match env.token_file with
      | none => runInteractiveFlow env []
      | some c =>
        if c.valid then
          saveAndReturn c [CredEffect.fileRead tokenPath]
        else if c.expired && truthyRefreshToken c then
          match env.refreshResult c with
          | Except.ok c2 =>
            saveAndReturn c2 [CredEffect.fileRead tokenPath, CredEffect.refreshCall]
          | Except.error e =>
            (Except.error e, [CredEffect.fileRead tokenPath, CredEffect.refreshCall])
        else
          runInteractiveFlow env [CredEffect.fileRead tokenPath]

/-- Request of `service.events().list(...)` as built by
`retrieve_calendar_events`. -/
structure EventsListRequest where
  calendarId : String
  timeMin : String
  maxResults : Nat
  singleEvents : Bool
  orderBy : String
deriving DecidableEq

/-- Body of `service.freebusy().query(body=query)` as built by
`retrieve_calendar_free_busy_slots`; `items` keeps the ids of the
`[\x7b"id": x\x7d for x in ids]` list. -/
structure FreeBusyQuery where
  timeMin : String
  timeMax : String
  timeZone : String
  groupExpansionMax : Nat
  calendarExpansionMax : Nat
  items : List String
deriving DecidableEq

/-- One upstream Google Calendar API call, with the credentials it was
authorized by and its request data. -/
inductive UpstreamCall where
  | eventsList : Creds → EventsListRequest → UpstreamCall
  | freebusy : Creds → FreeBusyQuery → UpstreamCall
  | calendarsGet : Creds → String → UpstreamCall
deriving DecidableEq

/-- Parsed reply of the registry endpoint: HTTP status and the JSON array
of user records (each record a string-valued JSON object). A transport or
parse failure is modelled as the enclosing `Except.error`. -/
structure HttpResp where
  status_code : Nat
  data : List (List (String × String))

/-- Environment of the five tools: the credential-store environment, the
current instant (`datetime.datetime.now().isoformat()` and the zoneinfo
UTC offsets in seconds at that instant), and one oracle per upstream
endpoint; `Except.error` models a raised exception, carrying its text. -/
structure ToolEnv where
  cred : CredEnv
  nowIso : String
  utcoffset : String → Except String Rat
  listEvents : Creds → EventsListRequest → Except String (List (String × JsonVal))
  freebusyQuery : Creds → FreeBusyQuery → Except String JsonVal
  calendarsGet : Creds → String → Except String JsonVal
  httpGet : String → Except String HttpResp

/-- Python `dict.get(k, d)` over a JSON object given as a field list. -/
def dictGetJson (fields : List (String × JsonVal)) (k : String) (d : JsonVal) : JsonVal :=
  match fields.lookup k with
  | some v => v
  | none => d

/-- Python `dict.get(k, d)` over a string-valued record. -/
def dictGet (r : List (String × String)) (k : String) (d : String) : String :=
  match r.lookup k with
  | some v => v
  | none => d

/-- Return shape of `get_timezone_difference`: the `result` field carries
"success" or the error text, `delta` the difference in hours (None on
error). Offsets and the delta are exact rationals standing for the float
arithmetic of the source (negation and the division by 3600 are exact
there for whole-second offsets). -/
structure DeltaEnvelope where
  result : String
  delta : Option Rat
deriving DecidableEq

/-- Return shape of `retrieve_calendar_events`. -/
structure EventsEnvelope where
  result : String
  events : JsonVal

/-- Return shape of `retrieve_calendar_free_busy_slots` and
`retrieve_timezone`. -/
structure RespEnvelope where
  result : String
  response : JsonVal

/-- Embedding of `get_timezone_difference` (server.py lines 69-89): both
zones are resolved at the same instant (one `datetime.now()` call); the
first zoneinfo failure is caught and reported. -/
def get_timezone_difference (tz1 tz2 : String) (env : ToolEnv) : DeltaEnvelope :=
  match env.utcoffset tz1 with
  | Except.error e => { result := "An error occurred: " ++ e, delta := none }
  | Except.ok o1 =>
    match env.utcoffset tz2 with
    | Except.error e => { result := "An error occurred: " ++ e, delta := none }
    | Except.ok o2 => { result := "success", delta := some ((o2 - o1) / 3600) }

/-- Hex digit (uppercase) for percent-encoding. -/
def hexUpper (n : Nat) : Char :=
  if n < 10 then Char.ofNat (48 + n) else Char.ofNat (55 + n)

/-- ASCII model of `urllib.parse.quote` with its default safe set: keep
alphanumerics and "_.-~/", percent-encode every other character. -/
def quoteChar (c : Char) : String :=
  if c.isAlphanum || c == '_' || c == '.' || c == '-' || c == '~' || c == '/' then
    String.mk [c]
  else
    String.mk ['%', hexUpper (c.toNat / 16 % 16), hexUpper (c.toNat % 16)]

/-- URL-encoding of the query parameter, `urllib.parse.quote(name)`. -/
def urllib_parse_quote (s : String) : String :=
  String.join (s.toList.map quoteChar)

/-- URL built by `lookup_registry_email`. -/
def registryUrl (name : String) : String :=
  "https://registry.sqprod.co/api/v2/users/search?query=" ++ urllib_parse_quote name

/-- Embedding of `lookup_registry_email` (server.py lines 94-129): a plain
string is returned; the branch taken decides whether it is the first
email, a sentinel, a not-found text, or an error diagnostic. -/
def lookup_registry_email (name : String) (env : ToolEnv) : String :=
  match env.httpGet (registryUrl name) with
  | Except.error e => "Error making request: " ++ e
  | Except.ok resp =>
    if resp.status_code == 200 then
      match resp.data with
      | [] => "No results found for " ++ sq ++ name ++ sq
      | r :: _ => dictGet r "email" "Email not found in response"
    else
      "Error: API returned status code " ++ toString resp.status_code

/-- Embedding of `retrieve_calendar_events` (server.py lines 133-170).
The `id` argument is accepted but the request is built with
`calendarId="primary"`; `timeMin` is `now.isoformat() + "Z"`; the
returned pair carries the envelope and the upstream calls issued. -/
def retrieve_calendar_events (id : String) (env : ToolEnv) :
    EventsEnvelope × List UpstreamCall :=
  match (get_gcal_credentials env.cred).1 with
  | Except.error e =>
    ({ result := "An error occurred: " ++ e, events := JsonVal.arr [] }, [])
  | Except.ok creds =>
    let req : EventsListRequest :=
      { calendarId := "primary", timeMin := env.nowIso ++ "Z", maxResults := 50,
        singleEvents := true, orderBy := "startTime" }
    match env.listEvents creds req with
    | Except.error e =>
      ({ result := "An error occurred: " ++ e, events := JsonVal.arr [] },
       [UpstreamCall.eventsList creds req])
    | Except.ok r =>
      ({ result := "success", events := dictGetJson r "items" (JsonVal.arr []) },
       [UpstreamCall.eventsList creds req])

/-- Embedding of `retrieve_calendar_free_busy_slots` (server.py lines
174-219); the source defaults are timezone="UTC" and ids=["primary"]. -/
def retrieve_calendar_free_busy_slots (time_min time_max timezone : String)
    (ids : List String) (env : ToolEnv) : RespEnvelope × List UpstreamCall :=
  match (get_gcal_credentials env.cred).1 with
  | Except.error e =>
    ({ result := "An error occurred: " ++ e, response := JsonVal.obj [] }, [])
  | Except.ok creds =>
    let query : FreeBusyQuery :=
      { timeMin := time_min, timeMax := time_max, timeZone := timezone,
        groupExpansionMax := 2, calendarExpansionMax := 2, items := ids }
    match env.freebusyQuery creds query with
    | Except.error e =>
      ({ result := "An error occurred: " ++ e, response := JsonVal.obj [] },
       [UpstreamCall.freebusy creds query])
    | Except.ok resp =>
      ({ result := "success", response := resp },
       [UpstreamCall.freebusy creds query])

/-- Embedding of `retrieve_timezone` (server.py lines 223-247); the
source default is calendar_id="primary". -/
def retrieve_timezone (calendar_id : String) (env : ToolEnv) :
    RespEnvelope × List UpstreamCall :=
  match (get_gcal_credentials env.cred).1 with
  | Except.error e =>
    ({ result := "An error occurred: " ++ e, response := JsonVal.obj [] }, [])
  | Except.ok creds =>
    match env.calendarsGet creds calendar_id with
    | Except.error e =>
      ({ result := "An error occurred: " ++ e, response := JsonVal.obj [] },
       [UpstreamCall.calendarsGet creds calendar_id])
    | Except.ok resp =>
      ({ result := "success", response := resp },
       [UpstreamCall.calendarsGet creds calendar_id])

/-! ## Envelope-shape predicates

In the source every dict-returning tool folds the status and the message
into the one `result` field: `result = "success"` is the success state
(no diagnostic message exists), and any other value of `result` is the
error state with `result` itself as the diagnostic. The two-state
predicates below say: either the envelope is in the success state, or it
is in the error state with a non-empty diagnostic and an empty payload. -/

def deltaTwoState (e : DeltaEnvelope) : Prop :=
  (e.result = "success" ∧ e.delta ≠ none) ∨
  (e.result ≠ "success" ∧ e.result ≠ "" ∧ e.delta = none)

def eventsTwoState (e : EventsEnvelope) : Prop :=
  (e.result = "success") ∨
  (e.result ≠ "success" ∧ e.result ≠ "" ∧ e.events = JsonVal.arr [])

def respTwoState (e : RespEnvelope) : Prop :=
  (e.result = "success") ∨
  (e.result ≠ "success" ∧ e.result ≠ "" ∧ e.response = JsonVal.obj [])

/-- Two-state reading of the string-returning registry tool: when the
request fails or the status is not 200, the returned string is exactly
the error diagnostic of that branch and is non-empty (there is no
payload to populate); a 200 reply is the success state, whose payload
semantics is settled separately. -/
def lookupTwoState (name : String) (env : ToolEnv) : Prop :=
  match env.httpGet (registryUrl name) with
  | Except.error e =>
    lookup_registry_email name env = "Error making request: " ++ e ∧
    lookup_registry_email name env ≠ ""
  | Except.ok resp =>
    resp.status_code = 200 ∨
      (lookup_registry_email name env =
        "Error: API returned status code " ++ toString resp.status_code ∧
       lookup_registry_email name env ≠ "")

/-- A string with a strictly longer prefix never equals a shorter one. -/
theorem append_ne_of_lt (p e q : String) (h : q.length < p.length) :
    p ++ e ≠ q := by
  intro hc
  have hl := congrArg String.length hc
  rw [String.length_append] at hl
  omega

theorem err_ne_success (e : String) : "An error occurred: " ++ e ≠ "success" :=
  append_ne_of_lt "An error occurred: " e "success" (by decide)

theorem err_ne_empty (e : String) : "An error occurred: " ++ e ≠ "" :=
  append_ne_of_lt "An error occurred: " e "" (by decide)

theorem reqerr_ne_empty (e : String) : "Error making request: " ++ e ≠ "" :=
  append_ne_of_lt "Error making request: " e "" (by decide)

theorem apierr_ne_empty (e : String) :
    "Error: API returned status code " ++ e ≠ "" :=
  append_ne_of_lt "Error: API returned status code " e "" (by decide)

/-- C1. For every tool invocation the returned envelope is in exactly one
of two states: success (result = "success", so no diagnostic message), or
error (result is a non-empty diagnostic distinct from "success", and the
payload field is the empty list / empty object / None). This is proved
for all five tools, the timezone-difference tool included. -/
theorem envelope_two_state :
    (∀ tz1 tz2 env, deltaTwoState (get_timezone_difference tz1 tz2 env)) ∧
    (∀ name env, lookupTwoState name env) ∧
    (∀ id env, eventsTwoState (retrieve_calendar_events id env).1) ∧
    (∀ tmin tmax tz ids env,
      respTwoState (retrieve_calendar_free_busy_slots tmin tmax tz ids env).1) ∧
    (∀ cid env, respTwoState (retrieve_timezone cid env).1) := by
  refine ⟨?_, ?_, ?_, ?_, ?_⟩
  · intro tz1 tz2 env
    unfold get_timezone_difference deltaTwoState
    cases h1 : env.utcoffset tz1 with
    | error e => exact Or.inr ⟨err_ne_success e, err_ne_empty e, rfl⟩
    | ok o1 =>
      cases h2 : env.utcoffset tz2 with
      | error e => exact Or.inr ⟨err_ne_success e, err_ne_empty e, rfl⟩
      | ok o2 => exact Or.inl ⟨rfl, by simp⟩
  · intro name env
    unfold lookupTwoState lookup_registry_email
    cases h : env.httpGet (registryUrl name) with
    | error e => exact ⟨rfl, reqerr_ne_empty e⟩
    | ok resp =>
      by_cases h200 : resp.status_code = 200
      · exact Or.inl h200
      · refine Or.inr ⟨?_, ?_⟩
        · simp [h, h200]
        · simp only [h]
          rw [if_neg (by simpa using h200)]
          exact apierr_ne_empty _
  · intro id env
    unfold retrieve_calendar_events eventsTwoState
    cases h1 : (get_gcal_credentials env.cred).1 with
    | error e => exact Or.inr ⟨err_ne_success e, err_ne_empty e, rfl⟩
    | ok creds =>
      cases h2 : env.listEvents creds
        { calendarId := "primary", timeMin := env.nowIso ++ "Z", maxResults := 50,
          singleEvents := true, orderBy := "startTime" } with
      | error e => simp only [h2]; exact Or.inr ⟨err_ne_success e, err_ne_empty e, by trivial⟩
      | ok r => simp only [h2]; exact Or.inl (by trivial)
  · intro tmin tmax tz ids env
    unfold retrieve_calendar_free_busy_slots respTwoState
    cases h1 : (get_gcal_credentials env.cred).1 with
    | error e => exact Or.inr ⟨err_ne_success e, err_ne_empty e, rfl⟩
    | ok creds =>
      cases h2 : env.freebusyQuery creds
        { timeMin := tmin, timeMax := tmax, timeZone := tz,
          groupExpansionMax := 2, calendarExpansionMax := 2, items := ids } with
      | error e => simp only [h2]; exact Or.inr ⟨err_ne_success e, err_ne_empty e, by trivial⟩
      | ok resp => simp only [h2]; exact Or.inl (by trivial)
  · intro cid env
    unfold retrieve_timezone respTwoState
    cases h1 : (get_gcal_credentials env.cred).1 with
    | error e => exact Or.inr ⟨err_ne_success e, err_ne_empty e, rfl⟩
    | ok creds =>
      cases h2 : env.calendarsGet creds cid with
      | error e => simp only [h2]; exact Or.inr ⟨err_ne_success e, err_ne_empty e, by trivial⟩
      | ok resp => simp only [h2]; exact Or.inl (by trivial)

/-! ## Concrete fixtures for witnesses and counterexamples -/

/-- A still-valid persisted credential. -/
def validCreds : Creds :=
  { valid := true, expired := false, refresh_token := some "rtok",
    to_json := "serialized-valid-creds" }

/-- An expired persisted credential holding a refresh token. -/
def expiredCreds : Creds :=
  { valid := false, expired := true, refresh_token := some "rtok",
    to_json := "serialized-expired-creds" }

/-- A credential freshly minted by the interactive flow. -/
def flowCreds : Creds :=
  { valid := true, expired := false, refresh_token := some "rtok2",
    to_json := "serialized-flow-creds" }

/-- Credential environment with both variables set and a valid token on
disk; neither the refresh exchange nor the interactive flow is reachable. -/
def envValidToken : CredEnv :=
  { gcal_token_path := some "/cfg/token.json"
    gcal_credentials_path := some "/cfg/credentials.json"
    token_file := some validCreds
    refreshResult := fun _ => Except.error "refresh not reached"
    flowResult := Except.error "flow not reached" }

/-- Credential environment where the persisted token is expired with a
refresh token and the refresh exchange is rejected; the interactive flow
would succeed if it were run. -/
def envRefreshFail : CredEnv :=
  { gcal_token_path := some "/cfg/token.json"
    gcal_credentials_path := some "/cfg/credentials.json"
    token_file := some expiredCreds
    refreshResult := fun _ => Except.error "invalid_grant"
    flowResult := Except.ok flowCreds }

/-- Credential environment with GCAL_TOKEN_PATH unset. -/
def envNoTokenPath : CredEnv :=
  { gcal_token_path := none
    gcal_credentials_path := some "/cfg/credentials.json"
    token_file := some validCreds
    refreshResult := fun _ => Except.error "refresh not reached"
    flowResult := Except.ok flowCreds }

/-- Credential environment with GCAL_CREDENTIALS_PATH unset. -/
def envNoCredsPath : CredEnv :=
  { gcal_token_path := some "/cfg/token.json"
    gcal_credentials_path := none
    token_file := some validCreds
    refreshResult := fun _ => Except.error "refresh not reached"
    flowResult := Except.ok flowCreds }

/-- Tool environment whose credential store always fails (missing
GCAL_TOKEN_PATH); every upstream oracle is live, so any upstream call
would be visible in the trace. -/
def toolEnvNoCred : ToolEnv :=
  { cred := envNoTokenPath
    nowIso := "2030-01-01T00:00:00"
    utcoffset := fun _ => Except.ok 0
    listEvents := fun _ _ => Except.ok [("items", JsonVal.arr [])]
    freebusyQuery := fun _ _ => Except.ok (JsonVal.obj [])
    calendarsGet := fun _ _ => Except.ok (JsonVal.obj [])
    httpGet := fun _ => Except.ok { status_code := 200, data := [] } }

/-! ## C8 — missing environment variables short-circuit -/

/-- C8. If either required environment variable is absent, credential
acquisition fails with the configuration KeyError and the effect trace is
empty: no token file read, no refresh exchange, no interactive flow, no
write. -/
theorem missing_env_short_circuits (env : CredEnv) :
    (env.gcal_token_path = none →
      get_gcal_credentials env = (Except.error (keyErrMsg "GCAL_TOKEN_PATH"), [])) ∧
    (env.gcal_token_path ≠ none → env.gcal_credentials_path = none →
      get_gcal_credentials env = (Except.error (keyErrMsg "GCAL_CREDENTIALS_PATH"), [])) := by
  constructor
  · intro h
    unfold get_gcal_credentials
    rw [h]
  · intro h1 h2
    unfold get_gcal_credentials
    cases hp : env.gcal_token_path with
    | none => exact absurd hp h1
    | some p => rw [h2]

/-- Witness for C8 at the two concrete environments with a variable
unset. -/
theorem missing_env_short_circuits_witness :
    get_gcal_credentials envNoTokenPath =
      (Except.error (keyErrMsg "GCAL_TOKEN_PATH"), []) ∧
    get_gcal_credentials envNoCredsPath =
      (Except.error (keyErrMsg "GCAL_CREDENTIALS_PATH"), []) :=
  ⟨(missing_env_short_circuits envNoTokenPath).1 rfl,
   (missing_env_short_circuits envNoCredsPath).2 (by simp [envNoCredsPath]) rfl⟩

/-! ## C3 — credential failure yields an error envelope and no upstream call -/

/-- C3. If credential acquisition raises, each of the three
credential-requiring tools returns the error-state envelope built from
the exception text and issues zero upstream calls. -/
theorem cred_failure_no_upstream_calls
    (env : ToolEnv) (id tmin tmax tz cid : String) (ids : List String) (e : String)
    (h : (get_gcal_credentials env.cred).1 = Except.error e) :
    retrieve_calendar_events id env =
      ({ result := "An error occurred: " ++ e, events := JsonVal.arr [] }, []) ∧
    retrieve_calendar_free_busy_slots tmin tmax tz ids env =
      ({ result := "An error occurred: " ++ e, response := JsonVal.obj [] }, []) ∧
    retrieve_timezone cid env =
      ({ result := "An error occurred: " ++ e, response := JsonVal.obj [] }, []) := by
  unfold retrieve_calendar_events retrieve_calendar_free_busy_slots retrieve_timezone
  rw [h]
  exact ⟨rfl, rfl, rfl⟩

/-- Witness for C3: with GCAL_TOKEN_PATH unset, all three tools return
the error envelope and an empty upstream-call trace, even though the
upstream oracles of `toolEnvNoCred` are live. -/
theorem cred_failure_no_upstream_calls_witness :
    retrieve_calendar_events "primary" toolEnvNoCred =
      ({ result := "An error occurred: " ++ keyErrMsg "GCAL_TOKEN_PATH",
         events := JsonVal.arr [] }, []) ∧
    retrieve_calendar_free_busy_slots "2030-01-01T00:00:00Z" "2030-01-02T00:00:00Z"
        "UTC" ["primary"] toolEnvNoCred =
      ({ result := "An error occurred: " ++ keyErrMsg "GCAL_TOKEN_PATH",
         response := JsonVal.obj [] }, []) ∧
    retrieve_timezone "primary" toolEnvNoCred =
      ({ result := "An error occurred: " ++ keyErrMsg "GCAL_TOKEN_PATH",
         response := JsonVal.obj [] }, []) :=
  cred_failure_no_upstream_calls toolEnvNoCred "primary" "2030-01-01T00:00:00Z"
    "2030-01-02T00:00:00Z" "UTC" "primary" ["primary"] (keyErrMsg "GCAL_TOKEN_PATH") rfl

/-! ## C4 — a failing refresh exchange propagates, it does not fall through -/

/-- Counterexample to C4 as stated: in `envRefreshFail` the persisted
credential is invalid, expired and holds a refresh token, the refresh
exchange is rejected, and the interactive flow would succeed — yet
acquisition returns the refresh error and the interactive flow is never
run (and nothing is persisted). -/
theorem refresh_failure_no_fallthrough_cex :
    (get_gcal_credentials envRefreshFail).1 = Except.error "invalid_grant" ∧
    CredEffect.interactiveFlow ∉ (get_gcal_credentials envRefreshFail).2 ∧
    (get_gcal_credentials envRefreshFail).2 =
      [CredEffect.fileRead "/cfg/token.json", CredEffect.refreshCall] :=
  ⟨rfl, by decide, rfl⟩

/-- C4 amended. When the loaded credential is invalid but expired with a
(truthy) refresh token, the refresh exchange is attempted; if it fails,
the failure propagates out of acquisition directly — the interactive
flow is not attempted and nothing is written. -/
theorem refresh_failure_propagates
    (env : CredEnv) (p q : String) (c : Creds) (e : String)
    (hp : env.gcal_token_path = some p)
    (hq : env.gcal_credentials_path = some q)
    (hc : env.token_file = some c)
    (hv : c.valid = false)
    (he : c.expired = true)
    (hr : truthyRefreshToken c = true)
    (hf : env.refreshResult c = Except.error e) :
    get_gcal_credentials env =
      (Except.error e, [CredEffect.fileRead p, CredEffect.refreshCall]) := by
  simp [get_gcal_credentials, hp, hq, hc, hv, he, hr, hf]

/-- Witness for C4 amended at the concrete `envRefreshFail`. -/
theorem refresh_failure_propagates_witness :
    get_gcal_credentials envRefreshFail =
      (Except.error "invalid_grant",
       [CredEffect.fileRead "/cfg/token.json", CredEffect.refreshCall]) :=
  refresh_failure_propagates envRefreshFail "/cfg/token.json" "/cfg/credentials.json"
    expiredCreds "invalid_grant" rfl rfl rfl rfl rfl rfl rfl

/-! ## C2 — the token is persisted, but to the literal path "token.json" -/

/-- C2 failing input: GCAL_TOKEN_PATH = "/cfg/token.json" with a valid
persisted credential. Acquisition succeeds and does persist the
credential before returning, but the write goes to the literal relative
path "token.json" (the working directory of the process), not to the
configured token path it read from. -/
theorem token_write_path_hardcoded :
    get_gcal_credentials envValidToken =
      (Except.ok validCreds,
       [CredEffect.fileRead "/cfg/token.json",
        CredEffect.fileWrite "token.json" validCreds.to_json]) ∧
    "token.json" ≠ "/cfg/token.json" :=
  ⟨rfl, by decide⟩

/-! ## C5 — the listing requests 50 results, not 10 -/

/-- Twelve upcoming event instances, as the upstream expansion returns
them. -/
def twelveEvents : List JsonVal :=
  (List.range 12).map fun i => JsonVal.str ("event-" ++ toString i)

/-- Tool environment with working credentials whose calendar holds 12
upcoming instances, and a live free/busy oracle. -/
def toolEnvTwelve : ToolEnv :=
  { cred := envValidToken
    nowIso := "2030-01-01T00:00:00"
    utcoffset := fun _ => Except.ok 0
    listEvents := fun _ _ => Except.ok [("items", JsonVal.arr twelveEvents)]
    freebusyQuery := fun _ q => Except.ok (JsonVal.obj [("calendars",
      JsonVal.obj (q.items.map fun i => (i, JsonVal.obj [("busy", JsonVal.arr [])])))])
    calendarsGet := fun _ cid => Except.ok (JsonVal.obj [("id", JsonVal.str cid),
      ("timeZone", JsonVal.str "Etc/UTC")])
    httpGet := fun _ => Except.ok { status_code := 200, data := [] } }

/-- C5 failing input: a calendar with 12 upcoming instances. The tool
builds its request with maxResults = 50 (not 10) and returns all 12
items, contradicting the stated cap of 10; the claimed windowing from
"now", the singleEvents expansion and the startTime ordering are indeed
requested from upstream. -/
theorem events_listing_returns_twelve :
    (retrieve_calendar_events "primary" toolEnvTwelve).1.result = "success" ∧
    (retrieve_calendar_events "primary" toolEnvTwelve).1.events =
      JsonVal.arr twelveEvents ∧
    twelveEvents.length = 12 ∧
    (retrieve_calendar_events "primary" toolEnvTwelve).2 =
      [UpstreamCall.eventsList validCreds
        { calendarId := "primary", timeMin := "2030-01-01T00:00:00Z",
          maxResults := 50, singleEvents := true, orderBy := "startTime" }] :=
  ⟨rfl, rfl, by decide, rfl⟩

/-! ## C6 — registry lookup branch semantics -/

/-- Reduction of `lookup_registry_email` once the request came back with
a reply. -/
theorem lookup_eq_of_ok (env : ToolEnv) (name : String) (resp : HttpResp)
    (h : env.httpGet (registryUrl name) = Except.ok resp) :
    lookup_registry_email name env =
      (if resp.status_code == 200 then
        match resp.data with
        | [] => "No results found for " ++ sq ++ name ++ sq
        | r :: _ => dictGet r "email" "Email not found in response"
      else "Error: API returned status code " ++ toString resp.status_code) := by
  unfold lookup_registry_email
  rw [h]

/-- C6. For a reply the registry request produced: on HTTP 200 with a
non-empty result list the tool returns the email field of the first
record unmodified, and a missing email field yields the sentinel string
instead of a failure; on HTTP 200 with an empty list it returns the
not-found text (a success-shaped outcome, not an error diagnostic); on
any other status it returns the error diagnostic carrying that status
code. -/
theorem registry_lookup_semantics
    (env : ToolEnv) (name : String) (resp : HttpResp)
    (h : env.httpGet (registryUrl name) = Except.ok resp) :
    (resp.status_code = 200 → resp.data = [] →
      lookup_registry_email name env = "No results found for " ++ sq ++ name ++ sq) ∧
    (∀ r rest, resp.status_code = 200 → resp.data = r :: rest →
      (∀ em, r.lookup "email" = some em → lookup_registry_email name env = em) ∧
      (r.lookup "email" = none →
        lookup_registry_email name env = "Email not found in response")) ∧
    (resp.status_code ≠ 200 →
      lookup_registry_email name env =
        "Error: API returned status code " ++ toString resp.status_code) := by
  have hred := lookup_eq_of_ok env name resp h
  refine ⟨?_, ?_, ?_⟩
  · intro h200 hdata
    rw [hred, hdata]
    simp [h200]
  · intro r rest h200 hdata
    rw [hred, hdata]
    constructor
    · intro em hem
      simp [h200, dictGet, hem]
    · intro hem
      simp [h200, dictGet, hem]
  · intro h200
    rw [hred, if_neg (by simp [h200])]

/-- Registry reply with two matching records; the first record carries
the email that must be returned unmodified. -/
def respTwoRecords : HttpResp :=
  { status_code := 200
    data := [[("name", "Alice One"), ("email", "alice@example.com")],
             [("name", "Alice Two"), ("email", "alice2@example.com")]] }

/-- Tool environment whose registry endpoint returns `respTwoRecords`. -/
def toolEnvRegistry : ToolEnv :=
  { toolEnvTwelve with httpGet := fun _ => Except.ok respTwoRecords }

/-- Witness for C6: a lookup with two matching records returns the email
of the first record of the upstream reply, unmodified. -/
theorem registry_lookup_semantics_witness :
    lookup_registry_email "Alice" toolEnvRegistry = "alice@example.com" :=
  (((registry_lookup_semantics toolEnvRegistry "Alice" respTwoRecords rfl).2.1
      [("name", "Alice One"), ("email", "alice@example.com")]
      [[("name", "Alice Two"), ("email", "alice2@example.com")]] rfl rfl).1
    "alice@example.com" rfl)

/-! ## C7 — timezone difference is antisymmetric and reflexively zero -/

/-- C7. For zones both resolvable at the shared instant of one call, the
tool computes (offset2 - offset1) / 3600; swapping the zones negates the
delta, and the delta of a zone with itself is 0. -/
theorem timezone_difference_antisym_refl
    (env : ToolEnv) (tz1 tz2 : String) (o1 o2 : Rat)
    (h1 : env.utcoffset tz1 = Except.ok o1)
    (h2 : env.utcoffset tz2 = Except.ok o2) :
    (get_timezone_difference tz1 tz2 env).delta = some ((o2 - o1) / 3600) ∧
    (get_timezone_difference tz2 tz1 env).delta = some (-((o2 - o1) / 3600)) ∧
    (get_timezone_difference tz1 tz1 env).delta = some 0 := by
  unfold get_timezone_difference
  rw [h1, h2]
  refine ⟨rfl, ?_, ?_⟩
  · show some ((o1 - o2) / 3600) = some (-((o2 - o1) / 3600))
    rw [← neg_div, neg_sub]
  · show some ((o1 - o1) / 3600) = some (0 : Rat)
    rw [sub_self, zero_div]

/-- Tool environment resolving two IANA zones at one instant: Tokyo at
+9h (32400 s) and New York at -5h (-18000 s). -/
def toolEnvTz : ToolEnv :=
  { toolEnvTwelve with
    utcoffset := fun tz =>
      if tz == "Asia/Tokyo" then Except.ok 32400
      else if tz == "America/New_York" then Except.ok (-18000)
      else Except.error ("No time zone found with key " ++ tz) }

/-- Witness for C7 at the concrete zone pair Tokyo / New York. -/
theorem timezone_difference_antisym_refl_witness :
    (get_timezone_difference "Asia/Tokyo" "America/New_York" toolEnvTz).delta =
      some ((-18000 - 32400) / 3600) ∧
    (get_timezone_difference "America/New_York" "Asia/Tokyo" toolEnvTz).delta =
      some (-((-18000 - 32400) / 3600)) ∧
    (get_timezone_difference "Asia/Tokyo" "Asia/Tokyo" toolEnvTz).delta = some 0 :=
  timezone_difference_antisym_refl toolEnvTz "Asia/Tokyo" "America/New_York"
    32400 (-18000) rfl rfl

/-! ## C9 — the free/busy window is not validated -/

/-- Counterexample to C9 as stated: with working credentials and
time_min (2030-01-02) after time_max (2030-01-01), the query is not
rejected — the upstream free/busy endpoint is called with the inverted
window verbatim and the tool returns a success envelope. -/
theorem freebusy_inverted_window_cex :
    retrieve_calendar_free_busy_slots "2030-01-02T00:00:00Z" "2030-01-01T00:00:00Z"
        "UTC" ["primary"] toolEnvTwelve =
      ({ result := "success",
         response := JsonVal.obj [("calendars", JsonVal.obj
           [("primary", JsonVal.obj [("busy", JsonVal.arr [])])])] },
       [UpstreamCall.freebusy validCreds
         { timeMin := "2030-01-02T00:00:00Z", timeMax := "2030-01-01T00:00:00Z",
           timeZone := "UTC", groupExpansionMax := 2, calendarExpansionMax := 2,
           items := ["primary"] }]) := rfl

/-- C9 amended. The free/busy tool performs no time-window validation:
whenever credential acquisition succeeds, the upstream query is issued
with the given time_min, time_max, timezone and ids verbatim — for an
inverted window included. -/
theorem freebusy_forwards_window_unvalidated
    (env : ToolEnv) (tmin tmax tz : String) (ids : List String) (creds : Creds)
    (h : (get_gcal_credentials env.cred).1 = Except.ok creds) :
    (retrieve_calendar_free_busy_slots tmin tmax tz ids env).2 =
      [UpstreamCall.freebusy creds
        { timeMin := tmin, timeMax := tmax, timeZone := tz,
          groupExpansionMax := 2, calendarExpansionMax := 2, items := ids }] := by
  unfold retrieve_calendar_free_busy_slots
  rw [h]
  cases hq : env.freebusyQuery creds
    { timeMin := tmin, timeMax := tmax, timeZone := tz,
      groupExpansionMax := 2, calendarExpansionMax := 2, items := ids } with
  | error e => simp only [hq]
  | ok resp => simp only [hq]

/-- Witness for C9 amended, instantiated at the inverted window. -/
theorem freebusy_forwards_window_unvalidated_witness :
    (retrieve_calendar_free_busy_slots "2030-01-02T00:00:00Z" "2030-01-01T00:00:00Z"
        "UTC" ["primary"] toolEnvTwelve).2 =
      [UpstreamCall.freebusy validCreds
        { timeMin := "2030-01-02T00:00:00Z", timeMax := "2030-01-01T00:00:00Z",
          timeZone := "UTC", groupExpansionMax := 2, calendarExpansionMax := 2,
          items := ["primary"] }] :=
  freebusy_forwards_window_unvalidated toolEnvTwelve "2030-01-02T00:00:00Z"
    "2030-01-01T00:00:00Z" "UTC" ["primary"] validCreds rfl

/-! ## C10 — the events tool ignores its id argument -/

/-- Test that an upstream call is an events listing on calendar
"primary". -/
def callsPrimaryOnly : UpstreamCall → Bool
  | UpstreamCall.eventsList _ req => req.calendarId == "primary"
  | _ => false

/-- C10. The events tool ignores its calendar-id argument entirely: two
invocations differing only in id are equal as functions of the
environment (same upstream request, same result), and every upstream
call it issues lists calendar "primary". -/
theorem events_tool_ignores_id :
    (∀ id1 id2 env,
      retrieve_calendar_events id1 env = retrieve_calendar_events id2 env) ∧
    (∀ id env, (retrieve_calendar_events id env).2.all callsPrimaryOnly = true) := by
  constructor
  · intro id1 id2 env
    rfl
  · intro id env
    unfold retrieve_calendar_events
    cases h1 : (get_gcal_credentials env.cred).1 with
    | error e => rfl
    | ok creds =>
      cases h2 : env.listEvents creds
        { calendarId := "primary", timeMin := env.nowIso ++ "Z", maxResults := 50,
          singleEvents := true, orderBy := "startTime" } with
      | error e => simp only [h2]; rfl
      | ok r => simp only [h2]; rfl

end McpGcal
